import Mathlib

/-
Verification of the filter-matching engine of tgbox (`src/tgbox/api/utils.py`,
`search_generator`, lines 199-399).  The async generator is embedded as pure
functions over lists: the per-record filter evaluation (lines 236-394) becomes
`evaluate`, the source-selection prologue (lines 212-222) becomes `construct`,
and the yield loop (lines 224-230, 396-399) becomes `process_items`.  Breaks of
the `for indx, filter in enumerate(...)` loop are modelled with `Except Bool`:
`.error y` means the loop was left by `break` with `yield_result[indx] = y`,
`.ok y` means the field chain ran to its end with `yield_result[indx] = y`.
A second family of definitions (`evaluateE`, ...) lets the string matcher
itself fail, modelling `re.search` raising on a malformed pattern.
-/

namespace Tgbox

/-- Python truth value of the optional tri-state `exported` criterion: `None`
and `False` are falsy, `True` is truthy (`if filter['exported']` and
`bool(filter['exported'])`, utils.py lines 239-245). -/
def pyBool : Option Bool → Bool
  | none => false
  | some b => b

/-- Substring occurrence on character lists, modelling Python's `p in s` for
strings (the `lambda p,s: p in s` branch of `in_func`, utils.py line 212). -/
def containsL (p : List Char) : List Char → Bool
  | [] => p.isEmpty
  | c :: rest => List.isPrefixOf p (c :: rest) || containsL p rest

/-- Python `p in s` on strings (substring mode of `in_func`). -/
def strContains (p s : String) : Bool := containsL p.data s.data

/-- A searchable file record.  Remote records read their byte length from
`file.file_size` and local ones from `file.size` (utils.py lines 225-228);
both are modelled by the single field `size`.  `cattrs = none` models a record
object without the `_cattrs` attribute (line 338); `cattrs = some m` models
`file.cattrs` being the mapping `m`. -/
structure BoxFile where
  id : Int
  size : Int
  mime : String
  upload_time : Int
  exported : Bool
  file_path : String
  file_name : String
  file_salt : String
  verbyte : Int
  cattrs : Option (List (String × String))
  deriving DecidableEq, Repr

/-- One element produced by the source iterator (utils.py lines 224-230): a
remote record (`hasattr(file, '_message')`), a local record
(`hasattr(file, '_tgbox_db')`), or anything else, which the loop skips with
`continue`. -/
inductive SourceItem where
  | remote (f : BoxFile)
  | localFile (f : BoxFile)
  | other
  deriving DecidableEq, Repr

/-- Modelled from the spec: one of the two per-field criteria mappings of a
`SearchFilter` (`in_filters` / `ex_filters`).  The `SearchFilter` class lives
in `tgbox/tools.py`, which is not among the sources, so its shape follows the
spec's CriteriaSet (spec 3): range fields keep their full ordered bound lists,
set fields are ordered lists of acceptable values, and `exported` is the
optional tri-state unset/true/false.  The `re` matching-mode flag
(`sf.in_filters['re']`, utils.py line 212) is modelled by the matcher function
passed to the evaluator. -/
structure Filters where
  exported : Option Bool
  mime : List String
  min_time : List Int
  max_time : List Int
  min_size : List Int
  max_size : List Int
  min_id : List Int
  max_id : List Int
  id : List Int
  cattrs : List (List (String × String))
  file_path : List String
  file_name : List String
  file_salt : List String
  verbyte : List Int
  deriving DecidableEq, Repr

/-- The pair of criteria mappings iterated by
`for indx, filter in enumerate((sf.in_filters, sf.ex_filters))`
(utils.py line 238). -/
structure SearchFilter where
  in_filters : Filters
  ex_filters : Filters
  deriving DecidableEq, Repr

/-- A `for x in xs: if p x: ... break / else: ...` scan: `true` iff the loop
was left by `break`, i.e. some element satisfies `p`; `false` iff the loop ran
out and the `else:` clause fired. -/
def forFirst (p : α → Bool) : List α → Bool
  | [] => false
  | x :: xs => if p x then true else forFirst p xs

/-- The `exported` block (utils.py lines 239-248).  On the include pass
(`indx = 0`) a mismatch sets the flag and breaks the filter loop; on the
exclude pass (`indx = 1`) a match does. -/
def checkExported (crit : Option Bool) (indx : Nat) (e : Bool) (yr : Bool) :
    Except Bool Bool :=
  if pyBool crit then
    if e != pyBool crit then
      if indx == 0 then Except.error false else Except.ok yr
    else if e == pyBool crit then
      if indx == 1 then Except.error false else Except.ok yr
    else Except.ok yr
  else Except.ok yr

/-- A set-field block (`mime`, `id`, `file_path`, `file_name`, `file_salt`,
`verbyte`; e.g. utils.py lines 250-259): a first-match loop whose `break`
leaves only the inner loop, and a `for`-`else` clause that, when the criteria
list is non-empty and nothing matched, fails the include pass and breaks the
outer filter loop. -/
def checkSet (p : α → Bool) (crit : List α) (indx : Nat) (yr : Bool) :
    Except Bool Bool :=
  if forFirst p crit then
    if indx == 1 then Except.ok false else Except.ok yr
  else if crit.isEmpty then Except.ok yr
  else if indx == 0 then Except.error false else Except.ok yr

/-- A lower-bound range block (`min_time`, `min_size`, `min_id`; e.g. utils.py
lines 261-270): only the last-inserted bound `filter[...][-1]` is consulted,
and the block is skipped when the bound list is empty. -/
def checkRangeMin (crit : List Int) (v : Int) (indx : Nat) (yr : Bool) :
    Except Bool Bool :=
  match crit.getLast? with
  | none => Except.ok yr
  | some bound =>
    if v < bound then
      if indx == 0 then Except.error false else Except.ok yr
    else if v ≥ bound then
      if indx == 1 then Except.error false else Except.ok yr
    else Except.ok yr

/-- An upper-bound range block (`max_time`, `max_size`, `max_id`; e.g.
utils.py lines 272-281), mirroring `checkRangeMin`. -/
def checkRangeMax (crit : List Int) (v : Int) (indx : Nat) (yr : Bool) :
    Except Bool Bool :=
  match crit.getLast? with
  | none => Except.ok yr
  | some bound =>
    if v > bound then
      if indx == 0 then Except.error false else Except.ok yr
    else if v ≤ bound then
      if indx == 1 then Except.error false else Except.ok yr
    else Except.ok yr

/-- The inner `for k,v in cattr.items()` loop (utils.py lines 340-345):
`true` iff some pair of the criteria mapping has its key present in the
record's custom attributes and its value matched by `in_func`, which is the
condition under which that loop is left by `break`. -/
def pairMatch (mf : String → String → Bool) (fc : List (String × String)) :
    List (String × String) → Bool
  | [] => false
  | (k, v) :: rest =>
    match fc.lookup k with
    | some fv => if mf v fv then true else pairMatch mf fc rest
    | none => pairMatch mf fc rest

/-- The outer `for cattr in filter['cattrs']` loop (utils.py lines 339-350).
When the inner loop finds no match its `else:` clause fires: on the include
pass the flag is cleared and the cattr loop is left (the `break` at line 350
only leaves this loop, not the filter loop); on the exclude pass a match
clears the flag and scanning continues. -/
def cattrLoop (mf : String → String → Bool) (fc : List (String × String))
    (indx : Nat) (yr : Bool) : List (List (String × String)) → Bool
  | [] => yr
  | ca :: rest =>
    if pairMatch mf fc ca then
      cattrLoop mf fc indx (if indx == 1 then false else yr) rest
    else if indx == 0 then false
    else cattrLoop mf fc indx yr rest

/-- The guarded custom-attributes block (utils.py lines 338-350): records
without the `_cattrs` attribute skip it entirely.  It never breaks the outer
filter loop. -/
def checkCattrs (mf : String → String → Bool)
    (crit : List (List (String × String)))
    (fc : Option (List (String × String))) (indx : Nat) (yr : Bool) :
    Except Bool Bool :=
  match fc with
  | none => Except.ok yr
  | some m => Except.ok (cattrLoop mf m indx yr crit)

/-- One pass of the `for indx, filter in enumerate(...)` body (utils.py lines
238-394), fields in source order, starting from flag value `yr`.  `.error y`
models leaving the loop body via `break` with `yield_result[indx] = y`. -/
def runChain (mf : String → String → Bool) (f : Filters) (indx : Nat)
    (file : BoxFile) (yr : Bool) : Except Bool Bool :=
  checkExported f.exported indx file.exported yr >>= fun yr1 =>
  checkSet (fun m => mf m file.mime) f.mime indx yr1 >>= fun yr2 =>
  checkRangeMin f.min_time file.upload_time indx yr2 >>= fun yr3 =>
  checkRangeMax f.max_time file.upload_time indx yr3 >>= fun yr4 =>
  checkRangeMin f.min_size file.size indx yr4 >>= fun yr5 =>
  checkRangeMax f.max_size file.size indx yr5 >>= fun yr6 =>
  checkRangeMin f.min_id file.id indx yr6 >>= fun yr7 =>
  checkRangeMax f.max_id file.id indx yr7 >>= fun yr8 =>
  checkSet (fun c => file.id == c) f.id indx yr8 >>= fun yr9 =>
  checkCattrs mf f.cattrs file.cattrs indx yr9 >>= fun yr10 =>
  checkSet (fun c => mf c file.file_path) f.file_path indx yr10 >>= fun yr11 =>
  checkSet (fun c => mf c file.file_name) f.file_name indx yr11 >>= fun yr12 =>
  checkSet (fun c => mf c file.file_salt) f.file_salt indx yr12 >>= fun yr13 =>
  checkSet (fun c => c == file.verbyte) f.verbyte indx yr13

/-- The per-record decision `all(yield_result)` (utils.py lines 232-396):
both flags start at `True`; a `break` on the include pass (`indx = 0`) skips
the exclude pass, whose flag then stays `True`. -/
def evaluate (mf : String → String → Bool) (sf : SearchFilter)
    (file : BoxFile) : Bool :=
  match runChain mf sf.in_filters 0 file true with
  | Except.error y0 => y0
  | Except.ok y0 =>
    match runChain mf sf.ex_filters 1 file true with
    | Except.error y1 => y0 && y1
    | Except.ok y1 => y0 && y1

/-- The record carried by a source element, when it is one of the two
recognised record variants (utils.py lines 225-230). -/
def recordOf : SourceItem → Option BoxFile
  | SourceItem.remote f => some f
  | SourceItem.localFile f => some f
  | SourceItem.other => none

/-- The `async for file in iter_from` loop (utils.py lines 224-230 and
396-399): unknown elements are skipped with `continue`, records are yielded
exactly when the decision is `True`. -/
def process_items (mf : String → String → Bool) (sf : SearchFilter) :
    List SourceItem → List SourceItem
  | [] => []
  | it :: rest =>
    match it with
    | SourceItem.remote f =>
      if evaluate mf sf f then it :: process_items mf sf rest
      else process_items mf sf rest
    | SourceItem.localFile f =>
      if evaluate mf sf f then it :: process_items mf sf rest
      else process_items mf sf rest
    | SourceItem.other => process_items mf sf rest

/-- Errors surfaced by the generator: `attributeError` models the
`AttributeError` Python raises at `lb.files(...)` when `lb` is `None`
(utils.py line 219; the `ValueError` guard at lines 221-222 comes after that
call and generators are always truthy, so it is never reached), and `reError`
models `re.error` escaping from `re.search` on a malformed pattern during a
field test. -/
inductive SearchError where
  | attributeError
  | reError
  deriving DecidableEq, Repr

/-- Modelled from the spec: `lb.files(min_id=..., max_id=...)` of
`DecryptedLocalBox` is not among the sources; per spec 4.3 and 6 it yields the
local records in order, bounded by the optional inclusive id window. -/
def lbFiles (files : List BoxFile) (minId maxId : Option Int) :
    List SourceItem :=
  (files.filter fun f =>
      (match minId with
       | none => true
       | some m => m ≤ f.id) &&
      (match maxId with
       | none => true
       | some m => f.id ≤ m)).map SourceItem.localFile

/-- The source-selection prologue (utils.py lines 214-222): a supplied
`it_messages` wins (a generator object is truthy even if it will yield
nothing); otherwise the local box is scanned with the last-inserted
`min_id`/`max_id` include bounds pushed down (lines 217-218). -/
def construct (sf : SearchFilter) (it_messages : Option (List SourceItem))
    (lb : Option (List BoxFile)) : Except SearchError (List SourceItem) :=
  match it_messages with
  | some msgs => Except.ok msgs
  | none =>
    match lb with
    | some files =>
      Except.ok (lbFiles files sf.in_filters.min_id.getLast?
        sf.in_filters.max_id.getLast?)
    | none => Except.error SearchError.attributeError

/-- The whole generator run with a total matcher (utils.py lines 199-399):
source selection followed by the filtered yield loop. -/
def search_generator (mf : String → String → Bool) (sf : SearchFilter)
    (it_messages : Option (List SourceItem)) (lb : Option (List BoxFile)) :
    Except SearchError (List SourceItem) :=
  match construct sf it_messages lb with
  | Except.error e => Except.error e
  | Except.ok items => Except.ok (process_items mf sf items)

/-- Lift a total matcher to a never-raising one, modelling a well-formed
matching mode (substring, or a valid regex). -/
def liftMf (mf : String → String → Bool) : String → String → Except Unit Bool :=
  fun a b => Except.ok (mf a b)

/-- `forFirst` for a matcher that may raise: the loop raises at the first
failing call it actually performs. -/
def forFirstE (p : α → Except Unit Bool) : List α → Except Unit Bool
  | [] => Except.ok false
  | x :: xs =>
    match p x with
    | Except.error e => Except.error e
    | Except.ok true => Except.ok true
    | Except.ok false => forFirstE p xs

/-- `checkSet` for a matcher that may raise. -/
def checkSetE (p : α → Except Unit Bool) (crit : List α) (indx : Nat)
    (yr : Bool) : Except Unit (Except Bool Bool) :=
  match forFirstE p crit with
  | Except.error e => Except.error e
  | Except.ok matched =>
    Except.ok
      (if matched then
        if indx == 1 then Except.ok false else Except.ok yr
      else if crit.isEmpty then Except.ok yr
      else if indx == 0 then Except.error false else Except.ok yr)

/-- `pairMatch` for a matcher that may raise. -/
def pairMatchE (mfE : String → String → Except Unit Bool)
    (fc : List (String × String)) :
    List (String × String) → Except Unit Bool
  | [] => Except.ok false
  | (k, v) :: rest =>
    match fc.lookup k with
    | some fv =>
      match mfE v fv with
      | Except.error e => Except.error e
      | Except.ok true => Except.ok true
      | Except.ok false => pairMatchE mfE fc rest
    | none => pairMatchE mfE fc rest

/-- `cattrLoop` for a matcher that may raise. -/
def cattrLoopE (mfE : String → String → Except Unit Bool)
    (fc : List (String × String)) (indx : Nat) (yr : Bool) :
    List (List (String × String)) → Except Unit Bool
  | [] => Except.ok yr
  | ca :: rest =>
    match pairMatchE mfE fc ca with
    | Except.error e => Except.error e
    | Except.ok true =>
      cattrLoopE mfE fc indx (if indx == 1 then false else yr) rest
    | Except.ok false =>
      if indx == 0 then Except.ok false
      else cattrLoopE mfE fc indx yr rest

/-- `checkCattrs` for a matcher that may raise. -/
def checkCattrsE (mfE : String → String → Except Unit Bool)
    (crit : List (List (String × String)))
    (fc : Option (List (String × String))) (indx : Nat) (yr : Bool) :
    Except Unit (Except Bool Bool) :=
  match fc with
  | none => Except.ok (Except.ok yr)
  | some m =>
    match cattrLoopE mfE m indx yr crit with
    | Except.error e => Except.error e
    | Except.ok yr1 => Except.ok (Except.ok yr1)

/-- Sequencing of field blocks under a raising matcher: a raise aborts
everything, an inner `break` still short-circuits the chain. -/
def bindBreak (x : Except Unit (Except Bool Bool))
    (k : Bool → Except Unit (Except Bool Bool)) :
    Except Unit (Except Bool Bool) :=
  match x with
  | Except.error e => Except.error e
  | Except.ok (Except.error b) => Except.ok (Except.error b)
  | Except.ok (Except.ok yr) => k yr

/-- `runChain` for a matcher that may raise: field blocks in source order;
only the blocks that call `in_func` can raise. -/
def runChainE (mfE : String → String → Except Unit Bool) (f : Filters)
    (indx : Nat) (file : BoxFile) (yr : Bool) :
    Except Unit (Except Bool Bool) :=
  bindBreak (Except.ok (checkExported f.exported indx file.exported yr))
    fun yr1 =>
  bindBreak (checkSetE (fun m => mfE m file.mime) f.mime indx yr1) fun yr2 =>
  bindBreak (Except.ok (checkRangeMin f.min_time file.upload_time indx yr2))
    fun yr3 =>
  bindBreak (Except.ok (checkRangeMax f.max_time file.upload_time indx yr3))
    fun yr4 =>
  bindBreak (Except.ok (checkRangeMin f.min_size file.size indx yr4))
    fun yr5 =>
  bindBreak (Except.ok (checkRangeMax f.max_size file.size indx yr5))
    fun yr6 =>
  bindBreak (Except.ok (checkRangeMin f.min_id file.id indx yr6)) fun yr7 =>
  bindBreak (Except.ok (checkRangeMax f.max_id file.id indx yr7)) fun yr8 =>
  bindBreak (Except.ok (checkSet (fun c => file.id == c) f.id indx yr8))
    fun yr9 =>
  bindBreak (checkCattrsE mfE f.cattrs file.cattrs indx yr9) fun yr10 =>
  bindBreak (checkSetE (fun c => mfE c file.file_path) f.file_path indx yr10)
    fun yr11 =>
  bindBreak (checkSetE (fun c => mfE c file.file_name) f.file_name indx yr11)
    fun yr12 =>
  bindBreak (checkSetE (fun c => mfE c file.file_salt) f.file_salt indx yr12)
    fun yr13 =>
  Except.ok (checkSet (fun c => c == file.verbyte) f.verbyte indx yr13)

/-- Per-record decision under a matcher that may raise. -/
def evaluateE (mfE : String → String → Except Unit Bool) (sf : SearchFilter)
    (file : BoxFile) : Except Unit Bool :=
  match runChainE mfE sf.in_filters 0 file true with
  | Except.error e => Except.error e
  | Except.ok (Except.error y0) => Except.ok y0
  | Except.ok (Except.ok y0) =>
    match runChainE mfE sf.ex_filters 1 file true with
    | Except.error e => Except.error e
    | Except.ok (Except.error y1) => Except.ok (y0 && y1)
    | Except.ok (Except.ok y1) => Except.ok (y0 && y1)

/-- The yield loop under a matcher that may raise: the first raising record
evaluation aborts the generator. -/
def process_itemsE (mfE : String → String → Except Unit Bool)
    (sf : SearchFilter) : List SourceItem → Except Unit (List SourceItem)
  | [] => Except.ok []
  | it :: rest =>
    match it with
    | SourceItem.other => process_itemsE mfE sf rest
    | SourceItem.remote f =>
      match evaluateE mfE sf f with
      | Except.error e => Except.error e
      | Except.ok true => (process_itemsE mfE sf rest).map (it :: ·)
      | Except.ok false => process_itemsE mfE sf rest
    | SourceItem.localFile f =>
      match evaluateE mfE sf f with
      | Except.error e => Except.error e
      | Except.ok true => (process_itemsE mfE sf rest).map (it :: ·)
      | Except.ok false => process_itemsE mfE sf rest

/-- The whole generator run when the matcher may raise. -/
def search_generatorE (mfE : String → String → Except Unit Bool)
    (sf : SearchFilter) (it_messages : Option (List SourceItem))
    (lb : Option (List BoxFile)) : Except SearchError (List SourceItem) :=
  match construct sf it_messages lb with
  | Except.error e => Except.error e
  | Except.ok items =>
    match process_itemsE mfE sf items with
    | Except.error _ => Except.error SearchError.reError
    | Except.ok out => Except.ok out

/-! ### Per-field tests

Each of the following predicates reads exactly one field of one criteria
mapping and the matching fields of the record; `evaluate` is proved below to
be the conjunction of their instances, one per field and per pass. -/

/-- Include test of the `exported` field: constrains only when the tri-state
criterion is truthy. -/
def incExported (crit : Option Bool) (e : Bool) : Bool :=
  if pyBool crit then e == pyBool crit else true

/-- Exclude test of the `exported` field. -/
def exExported (crit : Option Bool) (e : Bool) : Bool :=
  if pyBool crit then !(e == pyBool crit) else true

/-- Include test of a set field: an empty criteria list is no constraint,
otherwise some entry must match. -/
def incSet (p : α → Bool) (crit : List α) : Bool :=
  crit.isEmpty || crit.any p

/-- Exclude test of a set field: no entry may match. -/
def exSet (p : α → Bool) (crit : List α) : Bool :=
  !crit.any p

/-- Include test of a lower-bound range field: the value must reach the
last-inserted bound. -/
def incMin (crit : List Int) (v : Int) : Bool :=
  match crit.getLast? with
  | none => true
  | some bound => !(v < bound)

/-- Exclude test of a lower-bound range field: the value must stay below the
last-inserted bound. -/
def exMin (crit : List Int) (v : Int) : Bool :=
  match crit.getLast? with
  | none => true
  | some bound => v < bound

/-- Include test of an upper-bound range field. -/
def incMax (crit : List Int) (v : Int) : Bool :=
  match crit.getLast? with
  | none => true
  | some bound => !(v > bound)

/-- Exclude test of an upper-bound range field. -/
def exMax (crit : List Int) (v : Int) : Bool :=
  match crit.getLast? with
  | none => true
  | some bound => v > bound

/-- Include test of the custom-attributes field: records without the
capability pass outright; otherwise every listed mapping must have a matching
pair. -/
def incCattrs (mf : String → String → Bool)
    (crit : List (List (String × String))) :
    Option (List (String × String)) → Bool
  | none => true
  | some fc => crit.all fun ca => pairMatch mf fc ca

/-- Exclude test of the custom-attributes field: records without the
capability pass outright; otherwise no listed mapping may have a matching
pair. -/
def exCattrs (mf : String → String → Bool)
    (crit : List (List (String × String))) :
    Option (List (String × String)) → Bool
  | none => true
  | some fc => !crit.any fun ca => pairMatch mf fc ca

/-- Conjunction of all include-pass field tests, in source order. -/
def incPass (mf : String → String → Bool) (f : Filters) (file : BoxFile) :
    Bool :=
  incExported f.exported file.exported &&
  incSet (fun m => mf m file.mime) f.mime &&
  incMin f.min_time file.upload_time &&
  incMax f.max_time file.upload_time &&
  incMin f.min_size file.size &&
  incMax f.max_size file.size &&
  incMin f.min_id file.id &&
  incMax f.max_id file.id &&
  incSet (fun c => file.id == c) f.id &&
  incCattrs mf f.cattrs file.cattrs &&
  incSet (fun c => mf c file.file_path) f.file_path &&
  incSet (fun c => mf c file.file_name) f.file_name &&
  incSet (fun c => mf c file.file_salt) f.file_salt &&
  incSet (fun c => c == file.verbyte) f.verbyte

/-- Conjunction of all exclude-pass field tests, in source order. -/
def exPass (mf : String → String → Bool) (f : Filters) (file : BoxFile) :
    Bool :=
  exExported f.exported file.exported &&
  exSet (fun m => mf m file.mime) f.mime &&
  exMin f.min_time file.upload_time &&
  exMax f.max_time file.upload_time &&
  exMin f.min_size file.size &&
  exMax f.max_size file.size &&
  exMin f.min_id file.id &&
  exMax f.max_id file.id &&
  exSet (fun c => file.id == c) f.id &&
  exCattrs mf f.cattrs file.cattrs &&
  exSet (fun c => mf c file.file_path) f.file_path &&
  exSet (fun c => mf c file.file_name) f.file_name &&
  exSet (fun c => mf c file.file_salt) f.file_salt &&
  exSet (fun c => c == file.verbyte) f.verbyte

/-! ### The chain collapses to a conjunction -/

/-- Behaviour of a field block on one pass: starting from flag `yr` it either
runs through with the flag and-ed with the block's own test `p`, or leaves the
loop via `break` with the flag cleared, which only happens when `p` fails. -/
def Steps (c : Bool → Except Bool Bool) (p : Bool) : Prop :=
  ∀ yr, c yr = Except.ok (yr && p) ∨ (c yr = Except.error false ∧ p = false)

theorem steps_congr {c : Bool → Except Bool Bool} {p q : Bool}
    (h : Steps c p) (hpq : p = q) : Steps c q := hpq ▸ h

theorem steps_bind {c₁ c₂ : Bool → Except Bool Bool} {p₁ p₂ : Bool}
    (h₁ : Steps c₁ p₁) (h₂ : Steps c₂ p₂) :
    Steps (fun yr => c₁ yr >>= c₂) (p₁ && p₂) := by
  intro yr
  rcases h₁ yr with h | ⟨h, hp⟩
  · rcases h₂ (yr && p₁) with h2 | ⟨h2, hp2⟩
    · exact Or.inl (by simp [h, h2, Bind.bind, Except.bind, Bool.and_assoc])
    · exact Or.inr ⟨by simp [h, h2, Bind.bind, Except.bind], by simp [hp2]⟩
  · exact Or.inr ⟨by simp [h, Bind.bind, Except.bind], by simp [hp]⟩

theorem forFirst_eq_any (p : α → Bool) (l : List α) : forFirst p l = l.any p := by
  induction l with
  | nil => rfl
  | cons a l ih => cases h : p a <;> simp [forFirst, h, ih]

theorem steps_exported_in (crit : Option Bool) (e : Bool) :
    Steps (checkExported crit 0 e) (incExported crit e) := by
  intro yr
  cases crit with
  | none => exact Or.inl (by simp [checkExported, incExported, pyBool])
  | some b =>
    cases b <;> cases e <;>
      simp [checkExported, incExported, pyBool]

theorem steps_exported_ex (crit : Option Bool) (e : Bool) :
    Steps (checkExported crit 1 e) (exExported crit e) := by
  intro yr
  cases crit with
  | none => exact Or.inl (by simp [checkExported, exExported, pyBool])
  | some b =>
    cases b <;> cases e <;>
      simp [checkExported, exExported, pyBool]

theorem steps_set_in (p : α → Bool) (crit : List α) :
    Steps (checkSet p crit 0) (incSet p crit) := by
  intro yr
  unfold checkSet incSet
  rw [forFirst_eq_any]
  cases h : crit.any p with
  | true => exact Or.inl (by simp [h])
  | false =>
    cases crit with
    | nil => exact Or.inl (by simp)
    | cons a l => exact Or.inr ⟨by simp, by simp [h]⟩

theorem steps_set_ex (p : α → Bool) (crit : List α) :
    Steps (checkSet p crit 1) (exSet p crit) := by
  intro yr
  unfold checkSet exSet
  rw [forFirst_eq_any]
  cases h : crit.any p with
  | true => exact Or.inl (by simp [h])
  | false =>
    cases crit with
    | nil => exact Or.inl (by simp)
    | cons a l => exact Or.inl (by simp [h])

theorem steps_rangeMin_in (crit : List Int) (v : Int) :
    Steps (checkRangeMin crit v 0) (incMin crit v) := by
  intro yr
  unfold checkRangeMin incMin
  cases crit.getLast? with
  | none => exact Or.inl (by simp)
  | some bound =>
    by_cases hv : v < bound
    · exact Or.inr ⟨by simp [hv], by simp [hv]⟩
    · exact Or.inl (by simp [hv])

theorem steps_rangeMin_ex (crit : List Int) (v : Int) :
    Steps (checkRangeMin crit v 1) (exMin crit v) := by
  intro yr
  unfold checkRangeMin exMin
  cases crit.getLast? with
  | none => exact Or.inl (by simp)
  | some bound =>
    by_cases hv : v < bound
    · exact Or.inl (by simp [hv])
    · exact Or.inr ⟨by simp [hv, le_of_not_lt], by simp [hv]⟩

theorem steps_rangeMax_in (crit : List Int) (v : Int) :
    Steps (checkRangeMax crit v 0) (incMax crit v) := by
  intro yr
  unfold checkRangeMax incMax
  cases crit.getLast? with
  | none => exact Or.inl (by simp)
  | some bound =>
    by_cases hv : v > bound
    · exact Or.inr ⟨by simp [hv], by simp [hv]⟩
    · exact Or.inl (by simp [hv])

theorem steps_rangeMax_ex (crit : List Int) (v : Int) :
    Steps (checkRangeMax crit v 1) (exMax crit v) := by
  intro yr
  unfold checkRangeMax exMax
  cases crit.getLast? with
  | none => exact Or.inl (by simp)
  | some bound =>
    by_cases hv : v > bound
    · exact Or.inl (by simp [hv])
    · exact Or.inr ⟨by simp [hv, le_of_not_lt], by simp [hv]⟩

theorem cattrLoop_in (mf : String → String → Bool) (fc : List (String × String))
    (yr : Bool) (crit : List (List (String × String))) :
    cattrLoop mf fc 0 yr crit = (yr && crit.all fun ca => pairMatch mf fc ca) := by
  induction crit generalizing yr with
  | nil => simp [cattrLoop]
  | cons ca rest ih => cases h : pairMatch mf fc ca <;> simp [cattrLoop, h, ih]

theorem cattrLoop_ex (mf : String → String → Bool) (fc : List (String × String))
    (yr : Bool) (crit : List (List (String × String))) :
    cattrLoop mf fc 1 yr crit = (yr && !crit.any fun ca => pairMatch mf fc ca) := by
  induction crit generalizing yr with
  | nil => simp [cattrLoop]
  | cons ca rest ih => cases h : pairMatch mf fc ca <;> simp [cattrLoop, h, ih]

theorem steps_cattrs_in (mf : String → String → Bool)
    (crit : List (List (String × String)))
    (fc : Option (List (String × String))) :
    Steps (checkCattrs mf crit fc 0) (incCattrs mf crit fc) := by
  intro yr
  cases fc with
  | none => exact Or.inl (by simp [checkCattrs, incCattrs])
  | some m => exact Or.inl (by simp [checkCattrs, incCattrs, cattrLoop_in])

theorem steps_cattrs_ex (mf : String → String → Bool)
    (crit : List (List (String × String)))
    (fc : Option (List (String × String))) :
    Steps (checkCattrs mf crit fc 1) (exCattrs mf crit fc) := by
  intro yr
  cases fc with
  | none => exact Or.inl (by simp [checkCattrs, exCattrs])
  | some m => exact Or.inl (by simp [checkCattrs, exCattrs, cattrLoop_ex])

theorem steps_runChain_in (mf : String → String → Bool) (f : Filters)
    (file : BoxFile) : Steps (runChain mf f 0 file) (incPass mf f file) := by
  refine steps_congr
    (steps_bind (steps_exported_in f.exported file.exported)
      (steps_bind (steps_set_in (fun m => mf m file.mime) f.mime)
       (steps_bind (steps_rangeMin_in f.min_time file.upload_time)
        (steps_bind (steps_rangeMax_in f.max_time file.upload_time)
         (steps_bind (steps_rangeMin_in f.min_size file.size)
          (steps_bind (steps_rangeMax_in f.max_size file.size)
           (steps_bind (steps_rangeMin_in f.min_id file.id)
            (steps_bind (steps_rangeMax_in f.max_id file.id)
             (steps_bind (steps_set_in (fun c => file.id == c) f.id)
              (steps_bind (steps_cattrs_in mf f.cattrs file.cattrs)
               (steps_bind (steps_set_in (fun c => mf c file.file_path) f.file_path)
                (steps_bind (steps_set_in (fun c => mf c file.file_name) f.file_name)
                 (steps_bind (steps_set_in (fun c => mf c file.file_salt) f.file_salt)
                  (steps_set_in (fun c => c == file.verbyte) f.verbyte)))))))))))))) ?_
  simp [incPass, Bool.and_assoc]

theorem steps_runChain_ex (mf : String → String → Bool) (f : Filters)
    (file : BoxFile) : Steps (runChain mf f 1 file) (exPass mf f file) := by
  refine steps_congr
    (steps_bind (steps_exported_ex f.exported file.exported)
      (steps_bind (steps_set_ex (fun m => mf m file.mime) f.mime)
       (steps_bind (steps_rangeMin_ex f.min_time file.upload_time)
        (steps_bind (steps_rangeMax_ex f.max_time file.upload_time)
         (steps_bind (steps_rangeMin_ex f.min_size file.size)
          (steps_bind (steps_rangeMax_ex f.max_size file.size)
           (steps_bind (steps_rangeMin_ex f.min_id file.id)
            (steps_bind (steps_rangeMax_ex f.max_id file.id)
             (steps_bind (steps_set_ex (fun c => file.id == c) f.id)
              (steps_bind (steps_cattrs_ex mf f.cattrs file.cattrs)
               (steps_bind (steps_set_ex (fun c => mf c file.file_path) f.file_path)
                (steps_bind (steps_set_ex (fun c => mf c file.file_name) f.file_name)
                 (steps_bind (steps_set_ex (fun c => mf c file.file_salt) f.file_salt)
                  (steps_set_ex (fun c => c == file.verbyte) f.verbyte)))))))))))))) ?_
  simp [exPass, Bool.and_assoc]

/-- The decision of `search_generator`'s filter loop is the conjunction of the
independent per-field include tests and per-field exclude tests. -/
theorem evaluate_eq (mf : String → String → Bool) (sf : SearchFilter)
    (file : BoxFile) :
    evaluate mf sf file
      = (incPass mf sf.in_filters file && exPass mf sf.ex_filters file) := by
  have h0 := steps_runChain_in mf sf.in_filters file true
  have h1 := steps_runChain_ex mf sf.ex_filters file true
  unfold evaluate
  rcases h0 with h0 | ⟨h0, hp0⟩
  · rw [h0]
    rcases h1 with h1 | ⟨h1, hp1⟩
    · rw [h1]; simp
    · rw [h1]; simp [hp1]
  · rw [h0]; simp [hp0]

/-! ### A well-formed matcher never raises -/

theorem forFirstE_lift (pE : α → Except Unit Bool) (p : α → Bool)
    (hp : ∀ a, pE a = Except.ok (p a)) (l : List α) :
    forFirstE pE l = Except.ok (forFirst p l) := by
  induction l with
  | nil => rfl
  | cons a l ih => cases h : p a <;> simp [forFirstE, forFirst, hp, h, ih]

theorem checkSetE_lift (pE : α → Except Unit Bool) (p : α → Bool)
    (hp : ∀ a, pE a = Except.ok (p a)) (crit : List α) (indx : Nat) (yr : Bool) :
    checkSetE pE crit indx yr = Except.ok (checkSet p crit indx yr) := by
  unfold checkSetE checkSet
  rw [forFirstE_lift pE p hp]

theorem pairMatchE_lift (mfE : String → String → Except Unit Bool)
    (mf : String → String → Bool) (h : ∀ a b, mfE a b = Except.ok (mf a b))
    (fc ps : List (String × String)) :
    pairMatchE mfE fc ps = Except.ok (pairMatch mf fc ps) := by
  induction ps with
  | nil => rfl
  | cons kv rest ih =>
    obtain ⟨k, v⟩ := kv
    cases hl : fc.lookup k with
    | none => simp [pairMatchE, pairMatch, hl, ih]
    | some fv => cases hm : mf v fv <;> simp [pairMatchE, pairMatch, hl, h, hm, ih]

theorem cattrLoopE_lift (mfE : String → String → Except Unit Bool)
    (mf : String → String → Bool) (h : ∀ a b, mfE a b = Except.ok (mf a b))
    (fc : List (String × String)) (indx : Nat) (yr : Bool)
    (crit : List (List (String × String))) :
    cattrLoopE mfE fc indx yr crit = Except.ok (cattrLoop mf fc indx yr crit) := by
  induction crit generalizing yr with
  | nil => rfl
  | cons ca rest ih =>
    cases hm : pairMatch mf fc ca with
    | true => simp [cattrLoopE, cattrLoop, pairMatchE_lift mfE mf h, hm, ih]
    | false =>
      by_cases hi : indx = 0
      · simp [cattrLoopE, cattrLoop, pairMatchE_lift mfE mf h, hm, hi]
      · simp [cattrLoopE, cattrLoop, pairMatchE_lift mfE mf h, hm, hi, ih]

theorem checkCattrsE_lift (mfE : String → String → Except Unit Bool)
    (mf : String → String → Bool) (h : ∀ a b, mfE a b = Except.ok (mf a b))
    (crit : List (List (String × String)))
    (fc : Option (List (String × String))) (indx : Nat) (yr : Bool) :
    checkCattrsE mfE crit fc indx yr = Except.ok (checkCattrs mf crit fc indx yr) := by
  cases fc with
  | none => rfl
  | some m => simp [checkCattrsE, checkCattrs, cattrLoopE_lift mfE mf h]

theorem bindBreak_lift (x : Except Bool Bool)
    (k : Bool → Except Unit (Except Bool Bool)) (k1 : Bool → Except Bool Bool)
    (h : ∀ yr, k yr = Except.ok (k1 yr)) :
    bindBreak (Except.ok x) k = Except.ok (x >>= k1) := by
  cases x with
  | error b => rfl
  | ok yr => simp [bindBreak, h, Bind.bind, Except.bind]

theorem runChainE_lift (mf : String → String → Bool) (f : Filters)
    (indx : Nat) (file : BoxFile) (yr : Bool) :
    runChainE (liftMf mf) f indx file yr
      = Except.ok (runChain mf f indx file yr) := by
  unfold runChainE runChain
  refine bindBreak_lift _ _ _ fun yr1 => ?_
  rw [checkSetE_lift (fun m => liftMf mf m file.mime)
    (fun m => mf m file.mime) fun a => rfl]
  refine bindBreak_lift _ _ _ fun yr2 => ?_
  refine bindBreak_lift _ _ _ fun yr3 => ?_
  refine bindBreak_lift _ _ _ fun yr4 => ?_
  refine bindBreak_lift _ _ _ fun yr5 => ?_
  refine bindBreak_lift _ _ _ fun yr6 => ?_
  refine bindBreak_lift _ _ _ fun yr7 => ?_
  refine bindBreak_lift _ _ _ fun yr8 => ?_
  refine bindBreak_lift _ _ _ fun yr9 => ?_
  rw [checkCattrsE_lift (liftMf mf) mf (fun a b => rfl)]
  refine bindBreak_lift _ _ _ fun yr10 => ?_
  rw [checkSetE_lift (fun c => liftMf mf c file.file_path)
    (fun c => mf c file.file_path) fun a => rfl]
  refine bindBreak_lift _ _ _ fun yr11 => ?_
  rw [checkSetE_lift (fun c => liftMf mf c file.file_name)
    (fun c => mf c file.file_name) fun a => rfl]
  refine bindBreak_lift _ _ _ fun yr12 => ?_
  rw [checkSetE_lift (fun c => liftMf mf c file.file_salt)
    (fun c => mf c file.file_salt) fun a => rfl]
  refine bindBreak_lift _ _ _ fun yr13 => ?_
  rfl

theorem evaluateE_lift (mf : String → String → Bool) (sf : SearchFilter)
    (file : BoxFile) :
    evaluateE (liftMf mf) sf file = Except.ok (evaluate mf sf file) := by
  unfold evaluateE evaluate
  simp only [runChainE_lift]
  cases runChain mf sf.in_filters 0 file true with
  | error y0 => rfl
  | ok y0 =>
    cases runChain mf sf.ex_filters 1 file true with
    | error y1 => rfl
    | ok y1 => rfl

theorem process_itemsE_lift (mf : String → String → Bool) (sf : SearchFilter)
    (items : List SourceItem) :
    process_itemsE (liftMf mf) sf items
      = Except.ok (process_items mf sf items) := by
  induction items with
  | nil => rfl
  | cons it rest ih =>
    cases it with
    | other => simpa [process_itemsE, process_items] using ih
    | remote f =>
      simp only [process_itemsE, process_items, evaluateE_lift]
      cases evaluate mf sf f <;> simp [ih, Except.map]
    | localFile f =>
      simp only [process_itemsE, process_items, evaluateE_lift]
      cases evaluate mf sf f <;> simp [ih, Except.map]

theorem search_generatorE_lift (mf : String → String → Bool)
    (sf : SearchFilter) (it_messages : Option (List SourceItem))
    (lb : Option (List BoxFile)) :
    search_generatorE (liftMf mf) sf it_messages lb
      = search_generator mf sf it_messages lb := by
  unfold search_generatorE search_generator
  cases construct sf it_messages lb with
  | error e => rfl
  | ok items => simp [process_itemsE_lift]

/-! ### The yield loop is a filter -/

theorem process_items_filter (mf : String → String → Bool) (sf : SearchFilter)
    (items : List SourceItem) :
    process_items mf sf items
      = items.filter fun it => (recordOf it).elim false (evaluate mf sf) := by
  induction items with
  | nil => rfl
  | cons it rest ih =>
    cases it with
    | other => simp [process_items, recordOf, List.filter_cons, ih]
    | remote f =>
      cases h : evaluate mf sf f <;>
        simp [process_items, recordOf, List.filter_cons, h, ih]
    | localFile f =>
      cases h : evaluate mf sf f <;>
        simp [process_items, recordOf, List.filter_cons, h, ih]

theorem process_items_congr (mf : String → String → Bool)
    (sfA sfB : SearchFilter) (items : List SourceItem)
    (h : ∀ f, evaluate mf sfA f = evaluate mf sfB f) :
    process_items mf sfA items = process_items mf sfB items := by
  induction items with
  | nil => rfl
  | cons it rest ih => cases it <;> simp [process_items, h, ih]

/-! ### Concrete records and filters used in the claim statements -/

/-- The all-empty criteria mapping (no constraint on any field). -/
def emptyFilters : Filters :=
  ⟨none, [], [], [], [], [], [], [], [], [], [], [], [], []⟩

/-- The empty search filter. -/
def emptySearchFilter : SearchFilter := ⟨emptyFilters, emptyFilters⟩

/-- A neutral record used as the base for concrete instances. -/
def sampleFile : BoxFile :=
  { id := 1, size := 0, mime := "", upload_time := 0, exported := false,
    file_path := "", file_name := "", file_salt := "", verbyte := 0,
    cattrs := none }

def c1File : BoxFile := { sampleFile with mime := "text/plain" }

def c1Sf : SearchFilter :=
  { emptySearchFilter with
    in_filters := { emptyFilters with mime := ["image/png"] } }

def c1Sf2 : SearchFilter :=
  { c1Sf with in_filters := { c1Sf.in_filters with min_size := [100] } }

def c2File : BoxFile := { sampleFile with cattrs := some [("author", "bob")] }

def c2Sf : SearchFilter :=
  { emptySearchFilter with
    in_filters :=
      { emptyFilters with cattrs := [[("author", "alice")], [("author", "bob")]] } }

def c2MimeSf : SearchFilter :=
  { emptySearchFilter with
    in_filters := { emptyFilters with mime := ["image/png", "image/jpeg"] } }

def c2MimeFile : BoxFile := { sampleFile with mime := "image/jpeg" }

def c2BothSf : SearchFilter :=
  { emptySearchFilter with
    in_filters :=
      { emptyFilters with cattrs := [[("author", "bob")], [("year", "2020")]] } }

def c2BothFile : BoxFile :=
  { sampleFile with cattrs := some [("author", "bob"), ("year", "2020")] }

def c3File : BoxFile := { sampleFile with exported := true }

def c3Sf : SearchFilter :=
  { emptySearchFilter with
    in_filters := { emptyFilters with exported := some false } }

def c4Sf : SearchFilter :=
  { emptySearchFilter with
    in_filters := { emptyFilters with min_id := [5, 10] } }

def c4File : BoxFile := { sampleFile with id := 7 }

def c5File : BoxFile :=
  { sampleFile with size := 100, upload_time := 1000, id := 3 }

def c5Sf : SearchFilter :=
  { emptySearchFilter with
    in_filters :=
      { emptyFilters with
        min_size := [100], max_size := [100],
        min_time := [1000], max_time := [1000], min_id := [3], max_id := [3] } }

def c6Sf : SearchFilter :=
  { emptySearchFilter with
    in_filters := { emptyFilters with min_id := [10] } }

def c6R1 : SourceItem := SourceItem.remote { sampleFile with id := 10 }

def c6R2 : SourceItem := SourceItem.localFile { sampleFile with id := 5 }

def c6R3 : SourceItem := SourceItem.localFile { sampleFile with id := 11 }

/-- A matcher that raises on every call, modelling `re.search` with a
malformed pattern. -/
def badMf : String → String → Except Unit Bool := fun _ _ => Except.error ()

def c7Sf : SearchFilter :=
  { emptySearchFilter with
    in_filters := { emptyFilters with mime := ["("] } }

def c7Item : SourceItem := SourceItem.remote sampleFile

def c9File : BoxFile := sampleFile

def c9Sf : SearchFilter :=
  { emptySearchFilter with
    in_filters := { emptyFilters with cattrs := [[("author", "alice")]] },
    ex_filters := { emptyFilters with cattrs := [[("author", "bob")]] } }

/-! ### Claims -/

/-- C1: the overall decision of the evaluator is the conjunction of
independent per-field inclusion and exclusion tests (each conjunct reads only
its own field's criteria and record fields), and a record already failing the
mime inclusion test stays rejected under any filter that agrees on the mime
include criteria, whatever constraints on unrelated fields it adds. -/
theorem C1_field_conjunction_independence :
    (∀ (mf : String → String → Bool) (sf : SearchFilter) (file : BoxFile),
      evaluate mf sf file
        = (incPass mf sf.in_filters file && exPass mf sf.ex_filters file))
    ∧ (∀ (mf : String → String → Bool) (sf sf₂ : SearchFilter) (file : BoxFile),
      incSet (fun m => mf m file.mime) sf.in_filters.mime = false →
      sf₂.in_filters.mime = sf.in_filters.mime →
      evaluate mf sf file = false ∧ evaluate mf sf₂ file = false) := by
  refine ⟨evaluate_eq, ?_⟩
  intro mf sf sf₂ file hfail hsame
  constructor
  · rw [evaluate_eq]; simp [incPass, hfail]
  · rw [evaluate_eq]; simp [incPass, hsame, hfail]

/-- C1 witness: a record failing the mime include test of `c1Sf` is rejected
by `c1Sf` and by its extension `c1Sf2` carrying an extra size constraint. -/
theorem C1_field_conjunction_independence_witness :
    evaluate strContains c1Sf c1File = false
    ∧ evaluate strContains c1Sf2 c1File = false :=
  C1_field_conjunction_independence.2 strContains c1Sf c1Sf2 c1File
    (by decide) rfl

/-- C2 counterexample: `include.customAttributes` lists two mappings and the
second one matches the record, yet the record is rejected - inclusion is not
an OR across the listed criteria mappings. -/
theorem C2_counterexample_cattrs_not_or :
    evaluate strContains c2Sf c2File = false := by decide

/-- C2 amended: the decision decomposes into per-field tests in which every
plain set field (mime, id, filePath, fileName, fileSalt, verbyte) is an OR
over its non-empty include list (`incSet`/`exSet` via `List.any`), while for
customAttributes every listed mapping must contain at least one matching pair
(`incCattrs` via `List.all`); concretely, a record matching only the second
mime entry passes, and a record matching both cattr mappings passes. -/
theorem C2_amended_set_or_cattrs_all :
    (∀ (mf : String → String → Bool) (sf : SearchFilter) (file : BoxFile),
      evaluate mf sf file
        = (incPass mf sf.in_filters file && exPass mf sf.ex_filters file))
    ∧ evaluate strContains c2MimeSf c2MimeFile = true
    ∧ evaluate strContains c2BothSf c2BothFile = true :=
  ⟨evaluate_eq, by decide, by decide⟩

/-- C3: the code contradicts the claimed tri-state semantics of `exported`: a
criterion set to `false` is skipped (`if filter['exported']` is falsy for
`False` exactly as for unset), so a record with `exported = true` passes the
inclusion test that the claim requires it to fail; in general a false
criterion behaves identically to an unset one on both passes. -/
theorem C3_exported_false_ignored :
    evaluate strContains c3Sf c3File = true
    ∧ (∀ (mf : String → String → Bool) (sf : SearchFilter) (file : BoxFile),
      evaluate mf
          { sf with in_filters := { sf.in_filters with exported := some false } }
          file
        = evaluate mf
            { sf with in_filters := { sf.in_filters with exported := none } }
            file)
    ∧ (∀ (mf : String → String → Bool) (sf : SearchFilter) (file : BoxFile),
      evaluate mf
          { sf with ex_filters := { sf.ex_filters with exported := some false } }
          file
        = evaluate mf
            { sf with ex_filters := { sf.ex_filters with exported := none } }
            file) := by
  refine ⟨by decide, ?_, ?_⟩ <;>
  · intro mf sf file
    simp [evaluate_eq, incPass, exPass, incExported, exExported, pyBool]

/-- C4: for every range field only the last-inserted bound is effective, both
in the per-record tests (include and exclude passes alike) and in the
`min_id`/`max_id` window pushed down to the local source; concretely,
`include.min_id = [5, 10]` rejects a record with `id = 7`. -/
theorem C4_last_writer_wins :
    (∀ (mf : String → String → Bool) (sf : SearchFilter) (file : BoxFile)
        (l : List Int) (b : Int),
      (evaluate mf
          { sf with in_filters := { sf.in_filters with min_id := l ++ [b] } } file
        = evaluate mf
            { sf with in_filters := { sf.in_filters with min_id := [b] } } file)
      ∧ (evaluate mf
          { sf with in_filters := { sf.in_filters with max_id := l ++ [b] } } file
        = evaluate mf
            { sf with in_filters := { sf.in_filters with max_id := [b] } } file)
      ∧ (evaluate mf
          { sf with in_filters := { sf.in_filters with min_time := l ++ [b] } } file
        = evaluate mf
            { sf with in_filters := { sf.in_filters with min_time := [b] } } file)
      ∧ (evaluate mf
          { sf with in_filters := { sf.in_filters with max_time := l ++ [b] } } file
        = evaluate mf
            { sf with in_filters := { sf.in_filters with max_time := [b] } } file)
      ∧ (evaluate mf
          { sf with in_filters := { sf.in_filters with min_size := l ++ [b] } } file
        = evaluate mf
            { sf with in_filters := { sf.in_filters with min_size := [b] } } file)
      ∧ (evaluate mf
          { sf with in_filters := { sf.in_filters with max_size := l ++ [b] } } file
        = evaluate mf
            { sf with in_filters := { sf.in_filters with max_size := [b] } } file)
      ∧ (evaluate mf
          { sf with ex_filters := { sf.ex_filters with min_id := l ++ [b] } } file
        = evaluate mf
            { sf with ex_filters := { sf.ex_filters with min_id := [b] } } file)
      ∧ (evaluate mf
          { sf with ex_filters := { sf.ex_filters with max_id := l ++ [b] } } file
        = evaluate mf
            { sf with ex_filters := { sf.ex_filters with max_id := [b] } } file)
      ∧ (evaluate mf
          { sf with ex_filters := { sf.ex_filters with min_time := l ++ [b] } } file
        = evaluate mf
            { sf with ex_filters := { sf.ex_filters with min_time := [b] } } file)
      ∧ (evaluate mf
          { sf with ex_filters := { sf.ex_filters with max_time := l ++ [b] } } file
        = evaluate mf
            { sf with ex_filters := { sf.ex_filters with max_time := [b] } } file)
      ∧ (evaluate mf
          { sf with ex_filters := { sf.ex_filters with min_size := l ++ [b] } } file
        = evaluate mf
            { sf with ex_filters := { sf.ex_filters with min_size := [b] } } file)
      ∧ (evaluate mf
          { sf with ex_filters := { sf.ex_filters with max_size := l ++ [b] } } file
        = evaluate mf
            { sf with ex_filters := { sf.ex_filters with max_size := [b] } } file))
    ∧ (∀ (mf : String → String → Bool) (sf : SearchFilter) (lbf : List BoxFile)
        (l : List Int) (b : Int),
      (search_generator mf
          { sf with in_filters := { sf.in_filters with min_id := l ++ [b] } }
          none (some lbf)
        = search_generator mf
            { sf with in_filters := { sf.in_filters with min_id := [b] } }
            none (some lbf))
      ∧ (search_generator mf
          { sf with in_filters := { sf.in_filters with max_id := l ++ [b] } }
          none (some lbf)
        = search_generator mf
            { sf with in_filters := { sf.in_filters with max_id := [b] } }
            none (some lbf)))
    ∧ evaluate strContains c4Sf c4File = false := by
  refine ⟨?_, ?_, by decide⟩
  · intro mf sf file l b
    refine ⟨?_, ?_, ?_, ?_, ?_, ?_, ?_, ?_, ?_, ?_, ?_, ?_⟩ <;>
      simp [evaluate_eq, incPass, exPass, incMin, incMax, exMin, exMax,
        List.getLast?_concat]
  · intro mf sf lbf l b
    constructor <;>
    · unfold search_generator construct
      simp only [List.getLast?_concat]
      refine congrArg Except.ok ?_
      refine process_items_congr mf _ _ _ fun f => ?_
      simp [evaluate_eq, incPass, exPass, incMin, incMax, exMin, exMax,
        List.getLast?_concat]

/-- C5: range bounds are inclusive: a record whose size, upload time and id
exactly equal the effective include bounds passes every one of those
inclusion tests, and the decision is the same as with no include range
constraints at all. -/
theorem C5_range_inclusive (mf : String → String → Bool) (sf : SearchFilter)
    (file : BoxFile)
    (hmins : sf.in_filters.min_size.getLast? = some file.size)
    (hmaxs : sf.in_filters.max_size.getLast? = some file.size)
    (hmint : sf.in_filters.min_time.getLast? = some file.upload_time)
    (hmaxt : sf.in_filters.max_time.getLast? = some file.upload_time)
    (hmini : sf.in_filters.min_id.getLast? = some file.id)
    (hmaxi : sf.in_filters.max_id.getLast? = some file.id) :
    incMin sf.in_filters.min_size file.size = true
    ∧ incMax sf.in_filters.max_size file.size = true
    ∧ incMin sf.in_filters.min_time file.upload_time = true
    ∧ incMax sf.in_filters.max_time file.upload_time = true
    ∧ incMin sf.in_filters.min_id file.id = true
    ∧ incMax sf.in_filters.max_id file.id = true
    ∧ evaluate mf sf file
      = evaluate mf
          { sf with in_filters :=
            { sf.in_filters with
              min_size := [], max_size := [],
              min_time := [], max_time := [], min_id := [], max_id := [] } }
          file := by
  refine ⟨by simp [incMin, hmins], by simp [incMax, hmaxs],
    by simp [incMin, hmint], by simp [incMax, hmaxt],
    by simp [incMin, hmini], by simp [incMax, hmaxi], ?_⟩
  simp [evaluate_eq, incPass, exPass, incMin, incMax,
    hmins, hmaxs, hmint, hmaxt, hmini, hmaxi]

/-- C5 witness: a record whose size, time and id equal the concrete bounds of
`c5Sf` passes all six inclusion tests and is judged exactly as under the
filter with those bounds removed. -/
theorem C5_range_inclusive_witness :
    incMin c5Sf.in_filters.min_size c5File.size = true
    ∧ incMax c5Sf.in_filters.max_size c5File.size = true
    ∧ incMin c5Sf.in_filters.min_time c5File.upload_time = true
    ∧ incMax c5Sf.in_filters.max_time c5File.upload_time = true
    ∧ incMin c5Sf.in_filters.min_id c5File.id = true
    ∧ incMax c5Sf.in_filters.max_id c5File.id = true
    ∧ evaluate strContains c5Sf c5File
      = evaluate strContains
          { c5Sf with in_filters :=
            { c5Sf.in_filters with
              min_size := [], max_size := [],
              min_time := [], max_time := [], min_id := [], max_id := [] } }
          c5File :=
  C5_range_inclusive strContains c5Sf c5File (by decide) (by decide)
    (by decide) (by decide) (by decide) (by decide)

/-- C6: the pipeline's output is exactly the subsequence of the input, in
input order, consisting of the records that pass the evaluator (a `filter`,
hence a sublist: no reordering, no duplication); concretely, of
`[R1, R2, R3]` with only `R1` and `R3` passing, exactly `[R1, R3]` is
emitted. -/
theorem C6_output_is_passing_subsequence :
    (∀ (mf : String → String → Bool) (sf : SearchFilter)
        (items : List SourceItem),
      process_items mf sf items
        = items.filter fun it => (recordOf it).elim false (evaluate mf sf))
    ∧ (∀ (mf : String → String → Bool) (sf : SearchFilter)
        (items : List SourceItem),
      (process_items mf sf items).Sublist items)
    ∧ search_generator strContains c6Sf (some [c6R1, c6R2, c6R3]) none
        = Except.ok [c6R1, c6R3] := by
  refine ⟨process_items_filter, ?_, rfl⟩
  intro mf sf items
  rw [process_items_filter]
  exact List.filter_sublist items

/-- C7 counterexample: with a raising matcher (malformed regex) and a mime
criterion, source selection succeeds and the failure surfaces only while the
first record is evaluated - not at pipeline construction as the claim
states. -/
theorem C7_counterexample_raises_per_record :
    construct c7Sf (some [c7Item]) none = Except.ok [c7Item]
    ∧ evaluateE badMf c7Sf sampleFile = Except.error ()
    ∧ search_generatorE badMf c7Sf (some [c7Item]) none
        = Except.error SearchError.reError :=
  ⟨rfl, rfl, rfl⟩

/-- C7 amended: with a well-formed (never-raising) matcher the run never
raises - it coincides with the total evaluator - while a malformed matcher
raises during per-record processing (source selection never consults the
matcher). -/
theorem C7_amended_wellformed_never_raises :
    (∀ (mf : String → String → Bool) (sf : SearchFilter)
        (it_messages : Option (List SourceItem)) (lb : Option (List BoxFile)),
      search_generatorE (liftMf mf) sf it_messages lb
        = search_generator mf sf it_messages lb)
    ∧ process_itemsE badMf c7Sf [c7Item] = Except.error () :=
  ⟨search_generatorE_lift, rfl⟩

/-- C8: with neither `it_messages` nor `lb` supplied, the generator fails
during source selection - before any record is processed and before any
output element is produced (concretely via the AttributeError raised at
`lb.files`; no partial output exists). -/
theorem C8_no_source_fails_fast :
    (∀ (mf : String → String → Bool) (sf : SearchFilter),
      search_generator mf sf none none
        = Except.error SearchError.attributeError)
    ∧ (∀ (mfE : String → String → Except Unit Bool) (sf : SearchFilter),
      search_generatorE mfE sf none none
        = Except.error SearchError.attributeError)
    ∧ (∀ (sf : SearchFilter),
      construct sf none none = Except.error SearchError.attributeError) :=
  ⟨fun _ _ => rfl, fun _ _ => rfl, fun _ => rfl⟩

/-- C9: a record without the custom-attributes capability passes both cattrs
tests outright - even against non-empty cattrs criteria - and the overall
decision is the same as if both cattrs criteria lists were empty; evaluation
is total, so nothing can crash. -/
theorem C9_no_cattrs_auto_pass (mf : String → String → Bool)
    (sf : SearchFilter) (file : BoxFile) (h : file.cattrs = none) :
    incCattrs mf sf.in_filters.cattrs file.cattrs = true
    ∧ exCattrs mf sf.ex_filters.cattrs file.cattrs = true
    ∧ evaluate mf sf file
      = evaluate mf
          { sf with in_filters := { sf.in_filters with cattrs := [] },
                    ex_filters := { sf.ex_filters with cattrs := [] } }
          file := by
  refine ⟨by simp [incCattrs, h], by simp [exCattrs, h], ?_⟩
  simp [evaluate_eq, incPass, exPass, incCattrs, exCattrs, h]

/-- C9 witness: the record `c9File` without custom attributes, against the
filter `c9Sf` with non-empty cattrs criteria on both passes. -/
theorem C9_no_cattrs_auto_pass_witness :
    incCattrs strContains c9Sf.in_filters.cattrs c9File.cattrs = true
    ∧ exCattrs strContains c9Sf.ex_filters.cattrs c9File.cattrs = true
    ∧ evaluate strContains c9Sf c9File
      = evaluate strContains
          { c9Sf with in_filters := { c9Sf.in_filters with cattrs := [] },
                      ex_filters := { c9Sf.ex_filters with cattrs := [] } }
          c9File :=
  C9_no_cattrs_auto_pass strContains c9Sf c9File rfl

/-- C10: a source element that is neither record variant is silently skipped:
removing it from the source changes nothing, no error is raised (the run is a
total function of the remaining items), and even a raising matcher is never
consulted for it. -/
theorem C10_unknown_items_skipped :
    (∀ (mf : String → String → Bool) (sf : SearchFilter)
        (xs ys : List SourceItem),
      process_items mf sf (xs ++ SourceItem.other :: ys)
        = process_items mf sf (xs ++ ys))
    ∧ (∀ (mfE : String → String → Except Unit Bool) (sf : SearchFilter)
        (ys : List SourceItem),
      process_itemsE mfE sf (SourceItem.other :: ys)
        = process_itemsE mfE sf ys) := by
  constructor
  · intro mf sf xs ys
    induction xs with
    | nil => rfl
    | cons it rest ih => cases it <;> simp [process_items, ih]
  · intro mfE sf ys
    rfl

end Tgbox
